import Mathlib

/-!
Verification of the gs2d serial-servo driver (karakuri-products/gs2d-python).

This file gives a shallow embedding of the parts of the driver that the
specification talks about:

* `Driver.get_bytes` — the little-endian byte-packing helper
  (`src/gs2d/Driver.py`, `get_bytes`).  In Python it packs through
  `struct.pack('<H', data & mask)`, which raises `struct.error` when the
  masked value exceeds `0xFFFF`; that failure is modelled as `none`.
* The Futaba codec (`src/gs2d/Futaba.py`): XOR checksum, command framing,
  completion predicate, and the operations that raise `NotSupportException`.
* The RobotisP20 codec (`src/gs2d/RobotisP20.py`): bit-serial CRC-16
  (polynomial 0x8005), command framing, completion predicate, status-packet
  validation, and the state updates performed by the receive callbacks of
  `__get_function` and `__get_function_burstread`.
* The command queue (`DefaultCommandHandler.add_command` /
  `Driver.add_command_queue`, which share the same body) and the polling
  loop (`__polling_command_queue`) together with `close(force)`.

Python buffers are modelled as `List Nat` (a list of byte values); Python
slicing, including its negative-index convention, is modelled by `pySlice`.
-/

set_option maxRecDepth 100000

/-- Python index normalisation for slices: a negative index counts from the
end of the sequence. -/
def pyIndex (n : Nat) (i : Int) : Int :=
  if i < 0 then i + n else i

/-- Python slice `l[i:j]` (step 1): indices are normalised and clamped to
`[0, len l]`, then the half-open range is taken. -/
def pySlice (l : List Nat) (i j : Int) : List Nat :=
  let n := l.length
  let lo := (max 0 (min (pyIndex n i) n)).toNat
  let hi := (max 0 (min (pyIndex n j) n)).toNat
  (l.take hi).drop lo

/-- `int.from_bytes([lo, hi], 'little', signed=True)`. -/
def int16_of_le_bytes (lo hi : Nat) : Int :=
  let u := lo + 256 * hi
  if 32768 ≤ u then (u : Int) - 65536 else (u : Int)

/-- A wire command is a list of byte values. -/
abbrev Command := List Nat

/-- `Driver.get_bytes(data, byte_length)`: the masked value is packed with
`struct.pack('<H', ...)` (a fixed 2-byte intermediate), then `byte_length`
bytes are emitted, padding with zeros beyond index 1.  `struct.pack('<H', v)`
raises `struct.error` for `v > 0xFFFF`, modelled as `none`. -/
def Driver.get_bytes (data byteLength : Nat) : Option (List Nat) :=
  let masked := data % 2 ^ (8 * byteLength)
  if masked ≤ 0xFFFF then
    let dataHex : List Nat := [masked % 256, masked / 256]
    some ((List.range byteLength).map fun i => if i < 2 then dataHex.getD i 0 else 0)
  else
    none

theorem Driver.get_bytes_one (data : Nat) :
    Driver.get_bytes data 1 = some [data % 256] := by
  have h : data % 2 ^ (8 * 1) ≤ 0xFFFF := by
    have := Nat.mod_lt data (y := 2 ^ (8 * 1)) (by norm_num)
    omega
  simp only [Driver.get_bytes, h, if_pos]
  norm_num [List.range_succ]

theorem Driver.get_bytes_two (data : Nat) :
    Driver.get_bytes data 2 = some [data % 256, data % 65536 / 256] := by
  have h : data % 2 ^ (8 * 2) ≤ 0xFFFF := by
    have := Nat.mod_lt data (y := 2 ^ (8 * 2)) (by norm_num)
    omega
  have h256 : data % 2 ^ (8 * 2) % 256 = data % 256 := by
    have : (256 : Nat) ∣ 2 ^ (8 * 2) := by norm_num
    exact Nat.mod_mod_of_dvd data this
  simp only [Driver.get_bytes, h, if_pos]
  norm_num [List.range_succ, h256]

/-! ## Futaba codec -/

/-- `Futaba.__get_checksum`: XOR of `data[2:]` (from the `id` field to the
end of the byte sequence handed in). -/
def Futaba.get_checksum (data : List Nat) : Nat :=
  (data.drop 2).foldl (fun checksum d => checksum ^^^ d) 0

def Futaba.ADDR_TORQUE_ENABLE : Nat := 36

/-- `Futaba.__generate_command(sid, addr, data, flag, count, length)`:
`[0xFA, 0xAF, sid, flag, addr, length, count] ++ data ++ [checksum]`
with `length` defaulting to `len(data)` (or 0 without data) and the checksum
taken over everything from the `id` byte onward. -/
def Futaba.generate_command (sid addr : Nat) (data : Option (List Nat))
    (flag count : Nat) (length : Option Nat) : List Nat :=
  let lengthByte : Nat :=
    match length, data with
    | some l, _ => l
    | none, some d => d.length
    | none, none => 0
  let body : List Nat :=
    [0xFA, 0xAF, sid, flag, addr, lengthByte, count] ++
      (match data with | some d => d | none => [])
  body ++ [Futaba.get_checksum body]

/-- `Futaba.set_torque_enable(on_off, sid)`: the command that the method
generates and enqueues (a write of 1 byte at address `0x24`). -/
def Futaba.set_torque_enable (on_off : Bool) (sid : Nat) : List Nat :=
  let torque_data : Nat := if on_off then 0x01 else 0x00
  Futaba.generate_command sid Futaba.ADDR_TORQUE_ENABLE (some [torque_data]) 0 1 none

/-- `Futaba.is_complete_response`. -/
def Futaba.is_complete_response (response_data : List Nat) : Bool :=
  if response_data.length < 6 then
    false
  else
    let count := response_data.getD 5 0
    response_data.length == 8 + count

/-- `RobotisP20.is_complete_response`. -/
def RobotisP20.is_complete_response (response_data : List Nat) : Bool :=
  if response_data.length < 6 then
    false
  else
    let count := response_data.getD 5 0
    decide (7 + count ≤ response_data.length)

/-- Error kinds raised by driver operations before anything is sent. -/
inductive GsError
  | notSupport
  | badInputParameters
  deriving DecidableEq, Repr

/-- `Futaba.set_speed(dps, sid)` raises `NotSupportException` as its first
action; the command queue is untouched (an `error` result carries no new
queue, matching the exception propagating before any enqueue). -/
def Futaba.set_speed (dps : Int) (sid : Nat) (queue : List Command) :
    Except GsError (List Command) :=
  Except.error GsError.notSupport

/-- `Futaba.set_limit_temperature(limit_temp, sid)` raises
`NotSupportException` as its first action. -/
def Futaba.set_limit_temperature (limit_temp : Int) (sid : Nat)
    (queue : List Command) : Except GsError (List Command) :=
  Except.error GsError.notSupport

/-- `Futaba.get_burst_positions(sids)` raises `NotSupportException` as its
first action. -/
def Futaba.get_burst_positions (sids : List Nat) (queue : List Command) :
    Except GsError (List Command) :=
  Except.error GsError.notSupport

/-- `Futaba.burst_read(sid_address_length)` raises `NotSupportException` as
its first action. -/
def Futaba.burst_read (sid_address_length : List (Nat × Nat × Nat))
    (queue : List Command) : Except GsError (List Command) :=
  Except.error GsError.notSupport

/-! ## Claim C2: Futaba command encoding -/

/-- C2: every Futaba single-servo command is framed as
`[0xFA, 0xAF, id, flag, address, length, count, ...data, checksum]` with the
trailing checksum byte the XOR of all bytes from the `id` field (index 2)
through the last data byte; in particular `set_torque_enable(true, sid=1)`
encodes to `[0xFA, 0xAF, 0x01, 0x00, 0x24, 0x01, 0x01, 0x01, checksum]`
with `checksum = 0x01 ^ 0x00 ^ 0x24 ^ 0x01 ^ 0x01 ^ 0x01`. -/
theorem c2_futaba_command_encoding :
    (∀ sid flag addr : Nat, ∀ data : List Nat, 1 ≤ sid → sid ≤ 127 →
      Futaba.generate_command sid addr (some data) flag 1 none =
        [0xFA, 0xAF, sid, flag, addr, data.length, 1] ++ data ++
          [([sid, flag, addr, data.length, 1] ++ data).foldl
            (fun checksum d => checksum ^^^ d) 0]) ∧
    Futaba.set_torque_enable true 1 =
      [0xFA, 0xAF, 0x01, 0x00, 0x24, 0x01, 0x01, 0x01,
        0x01 ^^^ 0x00 ^^^ 0x24 ^^^ 0x01 ^^^ 0x01 ^^^ 0x01] := by
  constructor
  · intro sid flag addr data h1 h2
    simp [Futaba.generate_command, Futaba.get_checksum]
  · decide

/-- Witness for C2 at a concrete input (servo id 1, torque-enable data). -/
theorem c2_futaba_command_encoding_witness :
    Futaba.generate_command 1 36 (some [1]) 0 1 none =
      [0xFA, 0xAF, 1, 0, 36, 1, 1] ++ [1] ++
        [([1, 0, 36, 1, 1] ++ [1]).foldl (fun checksum d => checksum ^^^ d) 0] :=
  c2_futaba_command_encoding.1 1 0 36 [1] (by decide) (by decide)

/-! ## Claim C3: completion predicates -/

/-- C3: the Futaba completion predicate holds iff the buffer has at least 6
bytes and its length equals `8 + buffer[5]`; the RobotisP20 completion
predicate holds iff the buffer has at least 6 bytes and its length is at
least `7 + buffer[5]`. -/
theorem c3_completion_predicates (b : List Nat) :
    (Futaba.is_complete_response b = true ↔
      6 ≤ b.length ∧ b.length = 8 + b.getD 5 0) ∧
    (RobotisP20.is_complete_response b = true ↔
      6 ≤ b.length ∧ 7 + b.getD 5 0 ≤ b.length) := by
  constructor
  · unfold Futaba.is_complete_response
    split
    · simp; omega
    · simp; omega
  · unfold RobotisP20.is_complete_response
    split
    · simp; omega
    · simp; omega

/-! ## Claim C8: Futaba unsupported operations -/

/-- C8: `set_speed`, `set_limit_temperature`, `burst_read` and
`get_burst_positions` on the Futaba driver fail immediately with
`NotSupportException`, for every input and every queue state; no command is
generated or enqueued (no updated queue is ever produced). -/
theorem c8_futaba_not_supported :
    (∀ dps sid queue, Futaba.set_speed dps sid queue =
      Except.error GsError.notSupport) ∧
    (∀ limit_temp sid queue, Futaba.set_limit_temperature limit_temp sid queue =
      Except.error GsError.notSupport) ∧
    (∀ sids queue, Futaba.get_burst_positions sids queue =
      Except.error GsError.notSupport) ∧
    (∀ sal queue, Futaba.burst_read sal queue =
      Except.error GsError.notSupport) := by
  exact ⟨fun _ _ _ => rfl, fun _ _ _ => rfl, fun _ _ => rfl, fun _ _ => rfl⟩

/-! ## RobotisP20 CRC-16 and command framing -/

/-- One bit-shift of the CRC inner loop of `RobotisP20.__get_checksum`:
`crc <<= 1; if crc & (1 << 16): crc ^= (1 << 16) | 0x8005`. -/
def crcStep1 (crc : Nat) : Nat :=
  let crc2 := crc * 2
  if crc2 &&& (1 <<< 16) ≠ 0 then crc2 ^^^ ((1 <<< 16) ||| 0x8005) else crc2

/-- One input byte of `RobotisP20.__get_checksum`:
`crc ^= d << 8` followed by eight bit-shifts. -/
def crcByte (crc d : Nat) : Nat :=
  crcStep1^[8] (crc ^^^ (d <<< 8))

/-- The CRC register of `RobotisP20.__get_checksum` after consuming `data`
(seed 0, polynomial 0x8005, bit-serial). -/
def robotisCrc16 (data : List Nat) : Nat :=
  data.foldl crcByte 0

/-- `RobotisP20.__get_checksum`: the CRC register rendered as two
little-endian bytes via `Driver.get_bytes(crc, 2)`. -/
def RobotisP20.get_checksum (data : List Nat) : List Nat :=
  (Driver.get_bytes (robotisCrc16 data) 2).getD []

/-- `RobotisP20.__generate_command(sid, instruction, parameters, length)`:
header `FF FF FD 00`, id, 2-byte little-endian length (defaulting to
`1 + len(parameters) + 2`, or 3 without parameters), instruction,
parameters, CRC-16 over everything that precedes it. -/
def RobotisP20.generate_command (sid instruction : Nat)
    (parameters : Option (List Nat)) (length : Option Nat) : List Nat :=
  let len : Nat :=
    match length with
    | some l => l
    | none =>
      match parameters with
      | some ps => 1 + ps.length + 2
      | none => 3
  let withParams : List Nat :=
    [0xFF, 0xFF, 0xFD, 0x00] ++ [sid] ++ (Driver.get_bytes len 2).getD [] ++
      [instruction] ++ (match parameters with | some ps => ps | none => [])
  withParams ++ RobotisP20.get_checksum withParams

theorem lt_65536_of_lt_131072 (n : Nat) (h17 : n < 131072)
    (hbit : n.testBit 16 = false) : n < 65536 := by
  by_contra h
  push_neg at h
  rw [Nat.testBit_to_div_mod] at hbit
  norm_num at hbit
  omega

theorem crcStep1_lt (crc : Nat) (hc : crc < 65536) : crcStep1 crc < 65536 := by
  unfold crcStep1
  have h2 : crc * 2 < 131072 := by omega
  have hand : crc * 2 &&& (1 <<< 16) = ((crc * 2).testBit 16).toNat * 2 ^ 16 := by
    have := Nat.and_two_pow (crc * 2) 16
    norm_num at this ⊢
    exact this
  by_cases hb : (crc * 2).testBit 16
  · have hcond : crc * 2 &&& (1 <<< 16) ≠ 0 := by
      rw [hand, hb]
      norm_num
    simp only [hcond, ne_eq, not_true_eq_false, not_false_eq_true, if_pos, if_true]
    have hg : ((1 <<< 16) ||| 0x8005 : Nat) = 98309 := by decide
    rw [hg]
    have hxlt : crc * 2 ^^^ 98309 < 131072 := by
      have he : (131072 : Nat) = 2 ^ 17 := by norm_num
      rw [he]
      exact Nat.xor_lt_two_pow (by omega) (by norm_num)
    apply lt_65536_of_lt_131072 _ hxlt
    rw [Nat.testBit_xor, hb]
    decide
  · have hcond : ¬ (crc * 2 &&& (1 <<< 16) ≠ 0) := by
      rw [hand]
      simp [hb]
    simp only [hcond, if_neg, if_false]
    simp only [Bool.not_eq_true] at hb
    exact lt_65536_of_lt_131072 _ h2 hb

theorem crcStep1_iterate_lt (n crc : Nat) (hc : crc < 65536) :
    crcStep1^[n] crc < 65536 := by
  induction n generalizing crc with
  | zero => simpa using hc
  | succ n ih =>
    rw [Function.iterate_succ_apply]
    exact ih _ (crcStep1_lt crc hc)

theorem crcByte_lt (crc d : Nat) (hc : crc < 65536) (hd : d < 256) :
    crcByte crc d < 65536 := by
  unfold crcByte
  apply crcStep1_iterate_lt
  have hshift : d <<< 8 = d * 256 := by
    rw [Nat.shiftLeft_eq]
  have he : (65536 : Nat) = 2 ^ 16 := by norm_num
  rw [he]
  refine Nat.xor_lt_two_pow ?_ ?_
  · rw [← he]
    exact hc
  · rw [hshift, ← he]
    omega

theorem robotisCrc16_lt (data : List Nat) (h : ∀ x ∈ data, x < 256) :
    robotisCrc16 data < 65536 := by
  unfold robotisCrc16
  have general : ∀ l : List Nat, (∀ x ∈ l, x < 256) → ∀ init : Nat,
      init < 65536 → l.foldl crcByte init < 65536 := by
    intro l
    induction l with
    | nil => intro _ init hinit; simpa using hinit
    | cons d t ih =>
      intro hl init hinit
      simp only [List.foldl_cons]
      exact ih (fun x hx => hl x (List.mem_cons_of_mem d hx))
        (crcByte init d) (crcByte_lt init d hinit (hl d (List.mem_cons_self d t)))
  exact general data h 0 (by norm_num)

theorem RobotisP20.get_checksum_eq (data : List Nat) :
    RobotisP20.get_checksum data =
      [robotisCrc16 data % 256, robotisCrc16 data % 65536 / 256] := by
  unfold RobotisP20.get_checksum
  rw [Driver.get_bytes_two]
  rfl

/-! ## Claim C1: RobotisP20 command encoding and CRC -/

/-- C1: every RobotisP20 command with parameter list `params` is framed as
`[0xFF, 0xFF, 0xFD, 0x00, sid, length_lo, length_hi, instruction, ...params,
crc_lo, crc_hi]` with `length = 1 + len(params) + 2` and the trailing bytes
the little-endian CRC-16 (seed 0, bit-serial polynomial 0x8005, generator
`(1 << 16) | 0x8005`) of all preceding bytes; in particular a PING to id 1
(no parameters, length 3, as issued by `RobotisP20.ping`) encodes to
`[0xFF, 0xFF, 0xFD, 0x00, 0x01, 0x03, 0x00, 0x01, 0x19, 0x4E]`. -/
theorem c1_robotis_command_encoding :
    (∀ sid instruction : Nat, ∀ params : List Nat,
      sid < 256 → instruction < 256 → (∀ p ∈ params, p < 256) →
      params.length + 3 < 65536 →
      RobotisP20.generate_command sid instruction (some params) none =
        [0xFF, 0xFF, 0xFD, 0x00, sid, (1 + params.length + 2) % 256,
            (1 + params.length + 2) / 256, instruction] ++ params ++
          [robotisCrc16 ([0xFF, 0xFF, 0xFD, 0x00, sid, (1 + params.length + 2) % 256,
              (1 + params.length + 2) / 256, instruction] ++ params) % 256,
            robotisCrc16 ([0xFF, 0xFF, 0xFD, 0x00, sid, (1 + params.length + 2) % 256,
              (1 + params.length + 2) / 256, instruction] ++ params) / 256]) ∧
    RobotisP20.generate_command 1 1 none (some 3) =
      [0xFF, 0xFF, 0xFD, 0x00, 0x01, 0x03, 0x00, 0x01, 0x19, 0x4E] := by
  constructor
  · intro sid instruction params hsid hinstr hparams hlen
    have hLmod : (1 + params.length + 2) % 65536 = 1 + params.length + 2 :=
      Nat.mod_eq_of_lt (by omega)
    have hbody : ([0xFF, 0xFF, 0xFD, 0x00] ++ [sid] ++
        (Driver.get_bytes (1 + params.length + 2) 2).getD [] ++ [instruction] ++ params) =
        [0xFF, 0xFF, 0xFD, 0x00, sid, (1 + params.length + 2) % 256,
          (1 + params.length + 2) / 256, instruction] ++ params := by
      rw [Driver.get_bytes_two, hLmod]
      simp
    have hcrc : robotisCrc16 ([0xFF, 0xFF, 0xFD, 0x00, sid, (1 + params.length + 2) % 256,
        (1 + params.length + 2) / 256, instruction] ++ params) < 65536 := by
      apply robotisCrc16_lt
      intro x hx
      simp only [List.mem_append, List.mem_cons, List.not_mem_nil, or_false] at hx
      rcases hx with hx | hx
      · rcases hx with h | h | h | h | h | h | h | h
        all_goals subst h
        · norm_num
        · norm_num
        · norm_num
        · norm_num
        · exact hsid
        · exact Nat.mod_lt _ (by norm_num)
        · omega
        · exact hinstr
      · exact hparams x hx
    unfold RobotisP20.generate_command
    simp only []
    rw [hbody, RobotisP20.get_checksum_eq,
      Nat.mod_eq_of_lt (a := robotisCrc16 _) hcrc]
  · decide

/-- Witness for C1 at a concrete input: the READ command that
`get_torque_enable(sid=1)` generates (parameters `[64, 0, 1, 0]`). -/
theorem c1_robotis_command_encoding_witness :
    RobotisP20.generate_command 1 2 (some [64, 0, 1, 0]) none =
      [0xFF, 0xFF, 0xFD, 0x00, 1, (1 + 4 + 2) % 256, (1 + 4 + 2) / 256, 2] ++
          [64, 0, 1, 0] ++
        [robotisCrc16 ([0xFF, 0xFF, 0xFD, 0x00, 1, (1 + 4 + 2) % 256,
            (1 + 4 + 2) / 256, 2] ++ [64, 0, 1, 0]) % 256,
          robotisCrc16 ([0xFF, 0xFF, 0xFD, 0x00, 1, (1 + 4 + 2) % 256,
            (1 + 4 + 2) / 256, 2] ++ [64, 0, 1, 0]) / 256] := by
  have h := c1_robotis_command_encoding.1 1 2 [64, 0, 1, 0]
    (by decide) (by decide) (by decide) (by decide)
  simpa using h

/-! ## Claim C9: the byte-packing helper -/

/-- C9: `Driver.get_bytes` packs through a fixed 2-byte intermediate: for
widths 1 and 2 it returns the little-endian bytes of `data mod 2^(8*w)`,
but for width 4 any value with `data mod 2^32 ≥ 2^16` makes
`struct.pack('<H', ...)` fail (no 4-byte little-endian encoding is ever
produced), and even in the successful sub-2^16 case bytes 2 and 3 are
always zero — they can never carry the high 16 bits. -/
theorem c9_get_bytes_two_byte_truncation :
    (∀ data : Nat, Driver.get_bytes data 1 = some [data % 256]) ∧
    (∀ data : Nat, Driver.get_bytes data 2 = some [data % 256, data % 65536 / 256]) ∧
    (∀ data : Nat, 2 ^ 16 ≤ data % 2 ^ 32 → Driver.get_bytes data 4 = none) ∧
    (∀ data : Nat, data % 2 ^ 32 < 2 ^ 16 →
      Driver.get_bytes data 4 = some [data % 256, data % 2 ^ 32 / 256, 0, 0]) := by
  refine ⟨Driver.get_bytes_one, Driver.get_bytes_two, ?_, ?_⟩
  · intro data hdata
    unfold Driver.get_bytes
    have : ¬ (data % 2 ^ (8 * 4) ≤ 0xFFFF) := by
      norm_num at hdata ⊢
      omega
    simp only [this, if_neg, if_false]
  · intro data hdata
    have hle : data % 2 ^ (8 * 4) ≤ 0xFFFF := by
      norm_num at hdata ⊢
      omega
    have h256 : data % 2 ^ (8 * 4) % 256 = data % 256 := by
      have : (256 : Nat) ∣ 2 ^ (8 * 4) := by norm_num
      exact Nat.mod_mod_of_dvd data this
    simp only [Driver.get_bytes, hle, if_pos]
    norm_num [List.range_succ, h256]

/-- Witness for C9: a value of 70000 (above 2^16, below 2^32) makes the
4-byte packing fail, while 2-byte packing truncates it. -/
theorem c9_get_bytes_two_byte_truncation_witness :
    Driver.get_bytes 70000 4 = none :=
  c9_get_bytes_two_byte_truncation.2.2.1 70000 (by norm_num)

/-! ## RobotisP20 status-packet validation -/

/-- Outcome of the response validation performed by `temp_recv_callback`
inside `RobotisP20.__get_function` and (identically)
`RobotisP20.__get_function_burstread`.  Constructors other than
`checksumError` and `ok` correspond to paths that raise
`InvalidResponseDataException` inside the callback thread (or, for
`ignored`, return silently on a buffer of at most 2 bytes; `indexError` is
the `IndexError` raised by `checksum[0]` on an empty checksum slice, or by
`checksum[1]` on a one-byte slice whose first byte already matched). -/
inductive StatusDecode
  | ignored
  | invalidLength
  | invalidInstruction
  | invalidPacketLength
  | deviceError
  | indexError
  | checksumError
  | ok (payload : List Nat)
  deriving DecidableEq, Repr

/-- The validation/decode logic of `temp_recv_callback`: header indices 5–6
hold the little-endian signed declared length, index 7 the status
instruction (must be 0x55), index 8 the device error byte (must be 0); the
parameter slice is `response[9 : 7+L-2]` and the trailing CRC slice
`response[7+L-2 : 7+L]` is compared against the CRC recomputed over
`response[0 : 7+L-2]` by the short-circuit Python expression
`checksum[0] != generated_checksum[0] or checksum[1] != generated_checksum[1]`:
`checksum[0]` raises `IndexError` on an empty slice; a differing first byte
short-circuits to the checksum-error path; only when the first bytes agree
is `checksum[1]` evaluated, raising `IndexError` on a one-byte slice
(`generated_checksum` always has two bytes). -/
def RobotisP20.status_packet_decode (response : List Nat) : StatusDecode :=
  if 2 < response.length then
    if response.length ≤ 9 then
      StatusDecode.invalidLength
    else if response.getD 7 0 ≠ 0x55 then
      StatusDecode.invalidInstruction
    else
      let L := int16_of_le_bytes (response.getD 5 0) (response.getD 6 0)
      if (response.length : Int) < 7 + L then
        StatusDecode.invalidPacketLength
      else if 0 < response.getD 8 0 then
        StatusDecode.deviceError
      else
        let response_data := pySlice response 9 (7 + L - 2)
        let checksum := pySlice response (7 + L - 2) (7 + L)
        let generated := RobotisP20.get_checksum (pySlice response 0 (7 + L - 2))
        if checksum.length = 0 then
          StatusDecode.indexError
        else if checksum.getD 0 0 ≠ generated.getD 0 0 then
          StatusDecode.checksumError
        else if checksum.length < 2 then
          StatusDecode.indexError
        else if checksum.getD 1 0 ≠ generated.getD 1 0 then
          StatusDecode.checksumError
        else
          StatusDecode.ok response_data
  else
    StatusDecode.ignored

theorem pySlice_nat (l : List Nat) (i j : Nat) (hi : i ≤ l.length)
    (hj : j ≤ l.length) :
    pySlice l (i : Int) (j : Int) = (l.take j).drop i := by
  unfold pySlice pyIndex
  have h1 : (max 0 (min ((i : Nat) : Int) (l.length : Int))).toNat = i := by omega
  have h2 : (max 0 (min ((j : Nat) : Int) (l.length : Int))).toNat = j := by omega
  simp only []
  rw [if_neg (by omega), if_neg (by omega), h1, h2]

/-! ## Claim C6: status-packet decode / validation -/

/-- C6: for a complete, exact-length RobotisP20 status buffer (declared
length `L` at bytes 5–6, buffer length `7 + L`), decoding fails when byte 7
is not the status instruction 0x55, or byte 8 (the device error code) is
non-zero, or the CRC recomputed over all bytes preceding the trailing two
CRC bytes differs from those trailing bytes (a checksum error); otherwise it
yields the parameter slice from byte 9 up to byte `7 + L - 2`. -/
theorem c6_robotis_status_decode (b : List Nat) (L : Nat)
    (hL : L = b.getD 5 0 + 256 * b.getD 6 0)
    (h5 : b.getD 5 0 < 256) (h6 : b.getD 6 0 < 128)
    (hlen : b.length = 7 + L) (hL3 : 3 ≤ L) :
    RobotisP20.status_packet_decode b =
      (if b.getD 7 0 ≠ 0x55 then StatusDecode.invalidInstruction
       else if 0 < b.getD 8 0 then StatusDecode.deviceError
       else if b.drop (5 + L) ≠ RobotisP20.get_checksum (b.take (5 + L)) then
         StatusDecode.checksumError
       else StatusDecode.ok ((b.take (5 + L)).drop 9)) := by
  have hint : int16_of_le_bytes (b.getD 5 0) (b.getD 6 0) = (L : Int) := by
    unfold int16_of_le_bytes
    rw [if_neg (by omega)]
    omega
  have hi1 : (7 : Int) + (L : Int) - 2 = ((5 + L : Nat) : Int) := by omega
  have hi2 : (7 : Int) + (L : Int) = ((7 + L : Nat) : Int) := by omega
  have hs1 : pySlice b 9 ((5 + L : Nat) : Int) = (b.take (5 + L)).drop 9 := by
    have := pySlice_nat b 9 (5 + L) (by omega) (by omega)
    simpa using this
  have hs2 : pySlice b ((5 + L : Nat) : Int) ((7 + L : Nat) : Int) = b.drop (5 + L) := by
    have h := pySlice_nat b (5 + L) (7 + L) (by omega) (by omega)
    rw [h, ← hlen, List.take_length]
  have hs3 : pySlice b 0 ((5 + L : Nat) : Int) = b.take (5 + L) := by
    have h := pySlice_nat b 0 (5 + L) (by omega) (by omega)
    simpa using h
  have hcs_len : (b.drop (5 + L)).length = 2 := by
    rw [List.length_drop]
    omega
  obtain ⟨x, y, hxy⟩ := List.length_eq_two.mp hcs_len
  unfold RobotisP20.status_packet_decode
  simp only [hint]
  rw [if_pos (by omega : 2 < b.length), if_neg (by omega : ¬ b.length ≤ 9),
    if_neg (by omega : ¬ ((b.length : Int) < 7 + (L : Int)))]
  rw [hi1, hi2, hs1, hs2, hs3]
  rw [RobotisP20.get_checksum_eq, hxy]
  rw [if_neg (by simp : ¬ ([x, y].length = 0)),
    if_neg (by simp : ¬ ([x, y].length < 2))]
  simp only [List.getD_cons_zero, List.getD_cons_succ]
  have hinner : (if x ≠ robotisCrc16 (b.take (5 + L)) % 256 then
        StatusDecode.checksumError
      else if y ≠ robotisCrc16 (b.take (5 + L)) % 65536 / 256 then
        StatusDecode.checksumError
      else StatusDecode.ok ((b.take (5 + L)).drop 9)) =
      (if [x, y] ≠ [robotisCrc16 (b.take (5 + L)) % 256,
          robotisCrc16 (b.take (5 + L)) % 65536 / 256] then
        StatusDecode.checksumError
      else StatusDecode.ok ((b.take (5 + L)).drop 9)) := by
    by_cases h0 : x = robotisCrc16 (b.take (5 + L)) % 256
    · by_cases h1 : y = robotisCrc16 (b.take (5 + L)) % 65536 / 256
      · rw [if_neg (by simpa using h0), if_neg (by simpa using h1),
          if_neg (by simp [h0, h1])]
      · rw [if_neg (by simpa using h0), if_pos (by simpa using h1),
          if_pos (by simp [h1])]
    · rw [if_pos (by simpa using h0), if_pos (by simp [h0])]
  rw [hinner]

/-- Witness for C6: a well-formed empty-payload status packet from servo 1
(declared length 4, correct CRC bytes 0xA1 0x0C) decodes to an empty
parameter list. -/
theorem c6_robotis_status_decode_witness :
    RobotisP20.status_packet_decode
        [0xFF, 0xFF, 0xFD, 0x00, 0x01, 0x04, 0x00, 0x55, 0x00, 0xA1, 0x0C] =
      StatusDecode.ok [] := by
  have h := c6_robotis_status_decode
    [0xFF, 0xFF, 0xFD, 0x00, 0x01, 0x04, 0x00, 0x55, 0x00, 0xA1, 0x0C] 4
    (by decide) (by decide) (by decide) (by decide) (by decide)
  rw [h]
  decide

/-! ## The receive-callback state machines of the RobotisP20 get paths -/

/-- `true` exactly on responses whose validation succeeds. -/
def StatusDecode.isOk : StatusDecode → Bool
  | StatusDecode.ok _ => true
  | _ => false

/-- `true` on responses whose validation fails for a reason other than a
CRC mismatch: the silent return on a ≤2-byte buffer, the
`InvalidResponseDataException` paths (short packet, wrong instruction byte,
inconsistent declared length, non-zero device error byte) and the
checksum-slice `IndexError`.  These exceptions are raised inside the
receive-callback thread spawned by `__send_command`. -/
def StatusDecode.isNonChecksumFailure : StatusDecode → Bool
  | StatusDecode.ok _ => false
  | StatusDecode.checksumError => false
  | _ => true

/-- The nonlocal state of a blocking `RobotisP20.__get_function` call. -/
structure GetState where
  is_received : Bool
  is_checksum_error : Bool
  data : Option (List Nat)
  deriving DecidableEq, Repr

/-- Initial state of `__get_function`: nothing received, no error, no data. -/
def RobotisP20.get_init : GetState :=
  { is_received := false, is_checksum_error := false, data := none }

/-- Effect of one `temp_recv_callback(response)` run of
`RobotisP20.__get_function` (blocking variant, `callback=None`) on the
nonlocal flags: a successful decode stores the processed data and sets
`is_received`; a CRC mismatch sets `is_checksum_error`; every other
validation failure raises inside the callback thread and leaves the
nonlocal state untouched. -/
def RobotisP20.get_recv_callback (response_process : List Nat → List Nat)
    (s : GetState) (response : List Nat) : GetState :=
  match RobotisP20.status_packet_decode response with
  | StatusDecode.ok response_data =>
    { is_received := true, is_checksum_error := s.is_checksum_error,
      data := some (response_process response_data) }
  | StatusDecode.checksumError => { s with is_checksum_error := true }
  | _ => s

/-- Ways the busy-wait loop of a blocking get can finish, judged from the
final flag state: return the data if `is_received`, raise
`WrongCheckSumException` if `is_checksum_error`, otherwise keep spinning
until `ReceiveDataTimeoutException`. -/
inductive BlockingOutcome
  | value
  | wrongCheckSum
  | receiveDataTimeout
  deriving DecidableEq, Repr

/-- Exit taken by the `while not is_received` wait loop of
`__get_function` / `__get_function_burstread` for a given final flag
state. -/
def blocking_wait_outcome (is_received is_checksum_error : Bool) : BlockingOutcome :=
  if is_received then BlockingOutcome.value
  else if is_checksum_error then BlockingOutcome.wrongCheckSum
  else BlockingOutcome.receiveDataTimeout

/-- The nonlocal state of `RobotisP20.__get_function_burstread`. -/
structure BurstState where
  data_list : List (Nat × List Nat)
  received_num : Nat
  is_received : Bool
  is_checksum_error : Bool
  deriving DecidableEq, Repr

/-- Initial state of `__get_function_burstread`. -/
def RobotisP20.burst_init : BurstState :=
  { data_list := [], received_num := 0, is_received := false,
    is_checksum_error := false }

/-- Effect of one `temp_recv_callback(response)` run of
`RobotisP20.__get_function_burstread` on the nonlocal state: a successful
decode appends the processed data tagged with the responding id
(`response[4]`) and increments `received_num`, marking the request received
exactly when the count reaches `num`; a CRC mismatch sets
`is_checksum_error`; other validation failures raise inside the callback
thread and leave the state untouched. -/
def RobotisP20.burst_recv_callback (num : Nat)
    (response_process : List Nat → List Nat) (s : BurstState)
    (response : List Nat) : BurstState :=
  match RobotisP20.status_packet_decode response with
  | StatusDecode.ok response_data =>
    let recv_data := response_process response_data
    let data_list := s.data_list ++ [(response.getD 4 0, recv_data)]
    let received_num := s.received_num + 1
    if received_num = num then
      { data_list := data_list, received_num := received_num,
        is_received := true, is_checksum_error := s.is_checksum_error }
    else
      { s with data_list := data_list, received_num := received_num }
  | StatusDecode.checksumError => { s with is_checksum_error := true }
  | _ => s

/-- State of a burst read for `num` expected responses after the given
sequence of status packets has been delivered to its callback. -/
def RobotisP20.burst_run (num : Nat) (response_process : List Nat → List Nat)
    (responses : List (List Nat)) : BurstState :=
  responses.foldl (RobotisP20.burst_recv_callback num response_process)
    RobotisP20.burst_init

/-- Number of responses in a trace that decode successfully. -/
def ok_response_count (responses : List (List Nat)) : Nat :=
  (responses.filter (fun r => (RobotisP20.status_packet_decode r).isOk)).length

theorem ok_response_count_cons (r : List Nat) (rs : List (List Nat)) :
    ok_response_count (r :: rs) =
      (if (RobotisP20.status_packet_decode r).isOk then 1 else 0) +
        ok_response_count rs := by
  unfold ok_response_count
  rw [List.filter_cons]
  split
  · simp only [List.length_cons]
    omega
  · simp

theorem burst_recv_callback_received_num (num : Nat)
    (proc : List Nat → List Nat) (s : BurstState) (r : List Nat) :
    (RobotisP20.burst_recv_callback num proc s r).received_num =
      s.received_num +
        (if (RobotisP20.status_packet_decode r).isOk then 1 else 0) := by
  rcases hd : RobotisP20.status_packet_decode r with _ | _ | _ | _ | _ | _ | _ | p <;>
    simp only [RobotisP20.burst_recv_callback, hd, StatusDecode.isOk] <;>
    first
      | (split <;> simp_all)
      | simp

theorem burst_recv_callback_data_list (num : Nat)
    (proc : List Nat → List Nat) (s : BurstState) (r : List Nat) :
    (RobotisP20.burst_recv_callback num proc s r).data_list =
      s.data_list ++
        (match RobotisP20.status_packet_decode r with
          | StatusDecode.ok p => [(r.getD 4 0, proc p)]
          | _ => []) := by
  rcases hd : RobotisP20.status_packet_decode r with _ | _ | _ | _ | _ | _ | _ | p <;>
    simp only [RobotisP20.burst_recv_callback, hd, StatusDecode.isOk] <;>
    first
      | (split <;> simp_all)
      | simp

theorem burst_recv_callback_checksum_flag (num : Nat)
    (proc : List Nat → List Nat) (s : BurstState) (r : List Nat) :
    (RobotisP20.burst_recv_callback num proc s r).is_checksum_error =
      (s.is_checksum_error ||
        decide (RobotisP20.status_packet_decode r = StatusDecode.checksumError)) := by
  rcases hd : RobotisP20.status_packet_decode r with _ | _ | _ | _ | _ | _ | _ | p <;>
    simp only [RobotisP20.burst_recv_callback, hd, StatusDecode.isOk] <;>
    first
      | (split <;> simp_all)
      | simp

theorem burst_recv_callback_is_received (num : Nat)
    (proc : List Nat → List Nat) (s : BurstState) (r : List Nat) :
    (RobotisP20.burst_recv_callback num proc s r).is_received =
      (s.is_received ||
        ((RobotisP20.status_packet_decode r).isOk &&
          decide (s.received_num + 1 = num))) := by
  rcases hd : RobotisP20.status_packet_decode r with _ | _ | _ | _ | _ | _ | _ | p <;>
    simp only [RobotisP20.burst_recv_callback, hd, StatusDecode.isOk] <;>
    first
      | (split <;> simp_all)
      | simp

theorem burst_foldl_received_num (num : Nat) (proc : List Nat → List Nat)
    (rs : List (List Nat)) (s : BurstState) :
    (rs.foldl (RobotisP20.burst_recv_callback num proc) s).received_num =
      s.received_num + ok_response_count rs := by
  induction rs generalizing s with
  | nil => simp [ok_response_count]
  | cons r rs ih =>
    rw [List.foldl_cons, ih, burst_recv_callback_received_num,
      ok_response_count_cons]
    omega

theorem burst_foldl_data_list (num : Nat) (proc : List Nat → List Nat)
    (rs : List (List Nat)) (s : BurstState) :
    (rs.foldl (RobotisP20.burst_recv_callback num proc) s).data_list =
      s.data_list ++ rs.filterMap (fun r =>
        match RobotisP20.status_packet_decode r with
        | StatusDecode.ok p => some (r.getD 4 0, proc p)
        | _ => none) := by
  induction rs generalizing s with
  | nil => simp
  | cons r rs ih =>
    rw [List.foldl_cons, ih, burst_recv_callback_data_list,
      List.filterMap_cons]
    rcases hd : RobotisP20.status_packet_decode r with _ | _ | _ | _ | _ | _ | _ | p <;>
      simp [hd]

theorem burst_foldl_checksum_flag (num : Nat) (proc : List Nat → List Nat)
    (rs : List (List Nat)) (s : BurstState) :
    (rs.foldl (RobotisP20.burst_recv_callback num proc) s).is_checksum_error =
      (s.is_checksum_error || decide (∃ r ∈ rs,
        RobotisP20.status_packet_decode r = StatusDecode.checksumError)) := by
  induction rs generalizing s with
  | nil => simp
  | cons r rs ih =>
    rw [List.foldl_cons, ih, burst_recv_callback_checksum_flag]
    simp only [List.mem_cons, Bool.or_assoc]
    congr 1
    rcases hr : decide (RobotisP20.status_packet_decode r = StatusDecode.checksumError) with _ | _
    · simp only [decide_eq_false_iff_not] at hr
      simp [hr]
    · simp only [decide_eq_true_eq] at hr
      simp [hr]

theorem burst_foldl_is_received (num : Nat) (proc : List Nat → List Nat)
    (rs : List (List Nat)) (s : BurstState) :
    (rs.foldl (RobotisP20.burst_recv_callback num proc) s).is_received =
      (s.is_received || decide (s.received_num < num ∧
        num ≤ s.received_num + ok_response_count rs)) := by
  induction rs generalizing s with
  | nil =>
    simp only [List.foldl_nil, ok_response_count, List.filter_nil,
      List.length_nil, Nat.add_zero]
    have : ¬ (s.received_num < num ∧ num ≤ s.received_num) := by omega
    simp [this]
  | cons r rs ih =>
    rw [List.foldl_cons, ih, burst_recv_callback_is_received,
      burst_recv_callback_received_num, ok_response_count_cons]
    apply Bool.eq_iff_iff.mpr
    rcases hok : (RobotisP20.status_packet_decode r).isOk with _ | _ <;>
      rcases hsr : s.is_received with _ | _ <;>
        simp [hok, hsr] <;> omega

/-! ## Claim C5: burst Sync Read aggregation -/

/-- C5: a burst read expecting `num` responses counts exactly the
successfully-decoded status packets; it is marked received (completing the
blocking slot or callback) precisely when the `num`-th successful decode
arrives (`1 ≤ num` and at least `num` successes); each aggregated result is
tagged with the responding servo id taken from byte 4 of its packet; and a
CRC failure on any one packet sets the checksum-error flag, so that a burst
still short of `num` successes exits the blocking wait with
`WrongCheckSumException` even if other responses already arrived. -/
theorem c5_burst_read_aggregation (num : Nat)
    (response_process : List Nat → List Nat) (responses : List (List Nat)) :
    ((RobotisP20.burst_run num response_process responses).received_num =
        ok_response_count responses) ∧
    ((RobotisP20.burst_run num response_process responses).is_received =
        decide (1 ≤ num ∧ num ≤ ok_response_count responses)) ∧
    ((RobotisP20.burst_run num response_process responses).data_list =
        responses.filterMap (fun r =>
          match RobotisP20.status_packet_decode r with
          | StatusDecode.ok p => some (r.getD 4 0, response_process p)
          | _ => none)) ∧
    ((∃ r ∈ responses,
        RobotisP20.status_packet_decode r = StatusDecode.checksumError) →
      (RobotisP20.burst_run num response_process responses).is_checksum_error =
          true ∧
        (ok_response_count responses < num →
          blocking_wait_outcome
              (RobotisP20.burst_run num response_process responses).is_received
              (RobotisP20.burst_run num response_process responses).is_checksum_error =
            BlockingOutcome.wrongCheckSum)) := by
  unfold RobotisP20.burst_run
  refine ⟨?_, ?_, ?_, ?_⟩
  · rw [burst_foldl_received_num]
    simp [RobotisP20.burst_init]
  · rw [burst_foldl_is_received]
    simp only [RobotisP20.burst_init, Bool.false_or]
    apply decide_eq_decide.mpr
    omega
  · rw [burst_foldl_data_list]
    simp [RobotisP20.burst_init]
  · intro hex
    have hflag : (responses.foldl
        (RobotisP20.burst_recv_callback num response_process)
        RobotisP20.burst_init).is_checksum_error = true := by
      rw [burst_foldl_checksum_flag]
      simp [RobotisP20.burst_init, hex]
    refine ⟨hflag, fun hlt => ?_⟩
    have hrecv : (responses.foldl
        (RobotisP20.burst_recv_callback num response_process)
        RobotisP20.burst_init).is_received = false := by
      rw [burst_foldl_is_received]
      simp only [RobotisP20.burst_init, Bool.false_or]
      apply decide_eq_false
      omega
    rw [hflag, hrecv]
    rfl

/-- Witness for C5: a burst of 2 expected responses receiving one valid
packet and one CRC-corrupted packet sets the checksum-error flag and makes
the blocking wait raise `WrongCheckSumException`. -/
theorem c5_burst_read_aggregation_witness :
    (RobotisP20.burst_run 2 id
        [[0xFF, 0xFF, 0xFD, 0x00, 0x01, 0x04, 0x00, 0x55, 0x00, 0xA1, 0x0C],
          [0xFF, 0xFF, 0xFD, 0x00, 0x02, 0x04, 0x00, 0x55, 0x00, 0xA1, 0x0C]]).is_checksum_error =
        true ∧
      blocking_wait_outcome
          (RobotisP20.burst_run 2 id
            [[0xFF, 0xFF, 0xFD, 0x00, 0x01, 0x04, 0x00, 0x55, 0x00, 0xA1, 0x0C],
              [0xFF, 0xFF, 0xFD, 0x00, 0x02, 0x04, 0x00, 0x55, 0x00, 0xA1, 0x0C]]).is_received
          (RobotisP20.burst_run 2 id
            [[0xFF, 0xFF, 0xFD, 0x00, 0x01, 0x04, 0x00, 0x55, 0x00, 0xA1, 0x0C],
              [0xFF, 0xFF, 0xFD, 0x00, 0x02, 0x04, 0x00, 0x55, 0x00, 0xA1, 0x0C]]).is_checksum_error =
        BlockingOutcome.wrongCheckSum :=
  have h := (c5_burst_read_aggregation 2 id
      [[0xFF, 0xFF, 0xFD, 0x00, 0x01, 0x04, 0x00, 0x55, 0x00, 0xA1, 0x0C],
        [0xFF, 0xFF, 0xFD, 0x00, 0x02, 0x04, 0x00, 0x55, 0x00, 0xA1, 0x0C]]).2.2.2
    ⟨[0xFF, 0xFF, 0xFD, 0x00, 0x02, 0x04, 0x00, 0x55, 0x00, 0xA1, 0x0C],
      by decide, by decide⟩
  ⟨h.1, h.2 (by decide)⟩

/-! ## Claim C10: blocking get path on malformed responses -/

/-- C10: in the blocking RobotisP20 get path, a response failing validation
for any reason other than a CRC mismatch (too-short packet, wrong status
instruction byte, inconsistent length, non-zero device error byte) leaves
both the received flag and the checksum-error flag untouched — the
`InvalidResponseDataException` is raised only in the receive-callback's own
thread; consequently a blocking caller fed only such responses never
observes a malformed-response or device-reported error and exits with
`ReceiveDataTimeoutException`. -/
theorem c10_blocking_get_malformed_responses :
    (∀ response_process : List Nat → List Nat, ∀ s : GetState,
      ∀ r : List Nat,
      (RobotisP20.status_packet_decode r).isNonChecksumFailure = true →
      RobotisP20.get_recv_callback response_process s r = s) ∧
    (∀ response_process : List Nat → List Nat, ∀ responses : List (List Nat),
      (∀ r ∈ responses,
        (RobotisP20.status_packet_decode r).isNonChecksumFailure = true) →
      (responses.foldl (RobotisP20.get_recv_callback response_process)
          RobotisP20.get_init).is_received = false ∧
      (responses.foldl (RobotisP20.get_recv_callback response_process)
          RobotisP20.get_init).is_checksum_error = false ∧
      blocking_wait_outcome
          (responses.foldl (RobotisP20.get_recv_callback response_process)
            RobotisP20.get_init).is_received
          (responses.foldl (RobotisP20.get_recv_callback response_process)
            RobotisP20.get_init).is_checksum_error =
        BlockingOutcome.receiveDataTimeout) := by
  have hstep : ∀ response_process : List Nat → List Nat, ∀ s : GetState,
      ∀ r : List Nat,
      (RobotisP20.status_packet_decode r).isNonChecksumFailure = true →
      RobotisP20.get_recv_callback response_process s r = s := by
    intro response_process s r hr
    unfold RobotisP20.get_recv_callback
    rcases hd : RobotisP20.status_packet_decode r with _ | _ | _ | _ | _ | _ | _ | p <;>
      simp only [] <;>
      rw [hd] at hr <;>
      simp [StatusDecode.isNonChecksumFailure] at hr ⊢
  refine ⟨hstep, ?_⟩
  intro response_process responses hall
  have hfix : responses.foldl (RobotisP20.get_recv_callback response_process)
      RobotisP20.get_init = RobotisP20.get_init := by
    have general : ∀ rs : List (List Nat),
        (∀ r ∈ rs, (RobotisP20.status_packet_decode r).isNonChecksumFailure = true) →
        ∀ s : GetState,
        rs.foldl (RobotisP20.get_recv_callback response_process) s = s := by
      intro rs
      induction rs with
      | nil => intro _ s; rfl
      | cons r t ih =>
        intro h s
        rw [List.foldl_cons,
          hstep response_process s r (h r (List.mem_cons_self r t))]
        exact ih (fun x hx => h x (List.mem_cons_of_mem r hx)) s
    exact general responses hall RobotisP20.get_init
  rw [hfix]
  exact ⟨rfl, rfl, rfl⟩

/-- Witness for C10: a 3-byte response (too short) is a non-checksum
validation failure and leaves the blocking caller to time out. -/
theorem c10_blocking_get_malformed_responses_witness :
    RobotisP20.get_recv_callback id RobotisP20.get_init [0, 0, 0] =
        RobotisP20.get_init ∧
      blocking_wait_outcome
          (([[0, 0, 0]].foldl (RobotisP20.get_recv_callback id)
            RobotisP20.get_init)).is_received
          (([[0, 0, 0]].foldl (RobotisP20.get_recv_callback id)
            RobotisP20.get_init)).is_checksum_error =
        BlockingOutcome.receiveDataTimeout :=
  ⟨c10_blocking_get_malformed_responses.1 id RobotisP20.get_init [0, 0, 0]
      (by decide),
    (c10_blocking_get_malformed_responses.2 id [[0, 0, 0]]
      (by intro r hr; rw [List.mem_singleton.mp hr]; decide)).2.2⟩

/-! ## The command queue and the polling loop -/

def MAX_COMMAND_QUEUE_LENGTH : Nat := 1024

/-- Possible outcomes of `DefaultCommandHandler.add_command` (identical to
`Driver.add_command_queue`).  The queue is a `deque` bounded by
`command_queue_size`; new commands are inserted at index 0.  On a deque
already holding `command_queue_size` items, `deque.insert` raises
`IndexError`, which the source catches and converts into `return False`
(`fullDroppedFalse`): the command is not enqueued and no exception reaches
the caller. -/
inductive AddCommandResult
  | ok (queue : List Command)
  | overflowError
  | notPollingError
  | fullDroppedFalse
  deriving DecidableEq, Repr

/-- `DefaultCommandHandler.add_command(data)`: the guard raises
`CommandBufferOverflowException` only when the queue length strictly
exceeds `MAX_COMMAND_QUEUE_LENGTH` (the module constant 1024, not the
configured `command_queue_size`); `NotEnablePollingCommandException` when
polling is off; otherwise `insert(0, data)` on the bounded deque either
prepends the command or, at capacity, raises the `IndexError` that the
`except` clause turns into `False`. -/
def DefaultCommandHandler.add_command (command_queue_size : Nat)
    (enable_polling : Bool) (command_queue : List Command) (data : Command) :
    AddCommandResult :=
  if MAX_COMMAND_QUEUE_LENGTH < command_queue.length then
    AddCommandResult.overflowError
  else if enable_polling = false then
    AddCommandResult.notPollingError
  else if command_queue_size ≤ command_queue.length then
    AddCommandResult.fullDroppedFalse
  else
    AddCommandResult.ok (data :: command_queue)

/-- State shared between the polling thread and callers: the pending queue
(front = most recently enqueued, `insert(0, ...)`; `pop()` takes from the
back) and the list of commands already sent, in send order.  A command's
receive callback is started (in its own thread) exactly when the command is
sent, so "`sent`" also records which completion callbacks ever run. -/
structure PollState where
  queue : List Command
  sent : List Command
  deriving DecidableEq, Repr

/-- The `while` guard of `Driver.__polling_command_queue`:
`enable_polling or (not close_force and len(command_queue) > 0)`. -/
def Driver.polling_guard (enable_polling close_force : Bool)
    (s : PollState) : Bool :=
  enable_polling || (!close_force && decide (0 < s.queue.length))

/-- One iteration of the polling loop body: if the queue is non-empty, pop
the oldest command (from the back) and send it. -/
def Driver.polling_iter (s : PollState) : PollState :=
  if 0 < s.queue.length then
    { queue := s.queue.dropLast, sent := s.sent ++ [s.queue.getLastD []] }
  else
    s

/-- The polling loop, fuel-indexed: iterate the body while the guard holds.
`enable_polling` and `close_force` are the flag values after `close`
(running with `enable_polling = true` models the loop before `close`). -/
def Driver.polling_loop (enable_polling close_force : Bool) (fuel : Nat)
    (s : PollState) : PollState :=
  match fuel with
  | 0 => s
  | Nat.succ fuel =>
    if Driver.polling_guard enable_polling close_force s then
      Driver.polling_loop enable_polling close_force fuel (Driver.polling_iter s)
    else
      s

/-! ## Claim C4: queue capacity -/

/-- C4: at the default capacity 1024 the queue indeed never exceeds 1024
entries, but the claim's second half fails: enqueuing onto a full queue
does not raise the capacity error.  `CommandBufferOverflowException` is
unreachable at default capacity (its guard needs a length strictly above
1024, which the bounded deque never reaches), and on a full queue the
deque's `IndexError` is caught and `add_command` returns `False`, silently
dropping the command (every caller ignores the return value). -/
theorem c4_queue_capacity :
    (∀ enable_polling : Bool, ∀ queue : List Command, ∀ data : Command,
      ∀ queue' : List Command, queue.length ≤ 1024 →
      DefaultCommandHandler.add_command 1024 enable_polling queue data =
        AddCommandResult.ok queue' →
      queue'.length ≤ 1024) ∧
    (∀ enable_polling : Bool, ∀ queue : List Command, ∀ data : Command,
      queue.length ≤ 1024 →
      DefaultCommandHandler.add_command 1024 enable_polling queue data ≠
        AddCommandResult.overflowError) ∧
    DefaultCommandHandler.add_command 1024 true
        (List.replicate 1024 []) [] = AddCommandResult.fullDroppedFalse := by
  refine ⟨?_, ?_, ?_⟩
  · intro enable_polling queue data queue' hlen hok
    unfold DefaultCommandHandler.add_command at hok
    rw [if_neg (by simp [MAX_COMMAND_QUEUE_LENGTH]; omega)] at hok
    by_cases hep : enable_polling = false
    · rw [if_pos hep] at hok
      cases hok
    · rw [if_neg hep] at hok
      by_cases hfull : 1024 ≤ queue.length
      · rw [if_pos hfull] at hok
        cases hok
      · rw [if_neg hfull] at hok
        cases hok
        simp only [List.length_cons]
        omega
  · intro enable_polling queue data hlen
    unfold DefaultCommandHandler.add_command
    rw [if_neg (by simp [MAX_COMMAND_QUEUE_LENGTH]; omega)]
    by_cases hep : enable_polling = false
    · rw [if_pos hep]
      intro h
      cases h
    · rw [if_neg hep]
      by_cases hfull : 1024 ≤ queue.length
      · rw [if_pos hfull]
        intro h
        cases h
      · rw [if_neg hfull]
        intro h
        cases h
  · unfold DefaultCommandHandler.add_command
    rw [if_neg (by simp [MAX_COMMAND_QUEUE_LENGTH]),
      if_neg (by simp), if_pos (by simp)]

/-- Witness for C4 at a concrete input: enqueuing onto an empty queue with
polling enabled keeps the queue within capacity. -/
theorem c4_queue_capacity_witness :
    ([([] : Command)] : List Command).length ≤ 1024 :=
  c4_queue_capacity.1 true [] [] [[]] (by decide) (by decide)

/-! ## Claim C7: polling loop and close semantics -/

theorem reverse_eq_getLastD_cons (l : List Command) (h : l ≠ []) :
    l.reverse = l.getLastD [] :: l.dropLast.reverse := by
  conv_lhs => rw [← List.dropLast_append_getLast h]
  rw [List.reverse_append]
  simp [List.getLastD_eq_getLast?, List.getLast?_eq_getLast _ h]

theorem polling_drain (fuel : Nat) :
    ∀ s : PollState, s.queue.length ≤ fuel →
    Driver.polling_loop false false fuel s =
      { queue := [], sent := s.sent ++ s.queue.reverse } := by
  induction fuel with
  | zero =>
    intro s hs
    have hq : s.queue = [] := List.eq_nil_of_length_eq_zero (by omega)
    cases s with
    | mk q sent =>
      simp only [] at hq
      simp [Driver.polling_loop, hq]
  | succ fuel ih =>
    intro s hs
    by_cases hq : s.queue = []
    · unfold Driver.polling_loop
      rw [if_neg (by simp [Driver.polling_guard, hq])]
      cases s with
      | mk q sent =>
        simp only [] at hq
        simp [hq]
    · unfold Driver.polling_loop
      rw [if_pos (by
        simp [Driver.polling_guard, List.length_pos.mpr hq])]
      have hiter : Driver.polling_iter s =
          { queue := s.queue.dropLast, sent := s.sent ++ [s.queue.getLastD []] } := by
        unfold Driver.polling_iter
        rw [if_pos (List.length_pos.mpr hq)]
      rw [hiter, ih _ (by
        simp only [List.length_dropLast]
        omega)]
      simp only []
      congr 1
      rw [List.append_assoc, List.singleton_append,
        ← reverse_eq_getLastD_cons s.queue hq]

/-- C7: while polling is enabled the dispatch-loop guard always holds (the
loop keeps running); closing with drain (`close(force=False)`: polling off,
`close_force` false) runs the loop until the queue is empty, sending every
queued command in FIFO order after the ones already sent — nothing already
sent is abandoned; closing without drain (`close(force=True)`) stops the
loop immediately: the state is unchanged, so commands still queued are
never sent and (since a receive callback is started only when its command
is sent) their completion callbacks are never invoked. -/
theorem c7_polling_close_semantics :
    (∀ close_force : Bool, ∀ s : PollState,
      Driver.polling_guard true close_force s = true) ∧
    (∀ fuel : Nat, ∀ s : PollState, s.queue.length ≤ fuel →
      Driver.polling_loop false false fuel s =
        { queue := [], sent := s.sent ++ s.queue.reverse }) ∧
    (∀ fuel : Nat, ∀ s : PollState,
      Driver.polling_loop false true fuel s = s) := by
  refine ⟨?_, fun fuel s hs => polling_drain fuel s hs, ?_⟩
  · intro close_force s
    simp [Driver.polling_guard]
  · intro fuel s
    cases fuel with
    | zero => rfl
    | succ fuel =>
      unfold Driver.polling_loop
      rw [if_neg (by simp [Driver.polling_guard])]

/-- Witness for C7 at a concrete input: draining a two-command queue sends
both commands, oldest first. -/
theorem c7_polling_close_semantics_witness :
    Driver.polling_loop false false 2
        { queue := [[1], [2]], sent := [] } =
      { queue := [], sent := ([] : List Command) ++ [[1], [2]].reverse } :=
  c7_polling_close_semantics.2.1 2 { queue := [[1], [2]], sent := [] }
    (by decide)
